import Mathlib

/-!
# Verification of the Sprite/Rabbit actor core

Shallow embedding of the sprite lifecycle and rabbit actor implemented in
`src/components/Sprite.js`, `src/components/Rabbit.js` and configured by
`src/config/animations.js`.

Modelling conventions:
* Pixel coordinates, distances and glow quantities are rationals (`ℚ`);
  the JavaScript source only ever combines them with `+`, `-`, `*`, `/`,
  `min` and integer `Math.pow`, all exact on `ℚ`.
* The DOM element owned by a sprite is modelled by a `hasElement : Bool`
  flag together with explicit flags for the CSS classes the code toggles
  (`spawning`, `jumping`, `flipped`, `color-fade`, `color-revealed`).
* The direction-sign convention of the source is kept: `-1` means a jump
  to the right (sprite flipped), `1` means a jump to the left.
* `jump()` is asynchronous in the source.  It is modelled in two phases:
  `jumpStart` is the synchronous body up to (and including) registering
  the `animationend` listener, returning either `.resolved s` (the
  promise resolved immediately, no animation started) or
  `.animating s dir wasFirst` (animation running, completion pending);
  `onJumpEnd` is the completion handler, and `jumpComplete` composes the
  two, describing one full jump life cycle.
* Event-loop interleaving is modelled by an explicit operation type `Op`
  and a step function; a trace is a `List Op` folded over a state.
-/

namespace RabbitSpec

/-- Configuration record mirroring `RABBIT_CONFIG` in
`src/config/animations.js`, restricted to the fields the `Rabbit` class
reads.  The glow and click fields (`glowRange`, `maxProximityGlow`,
`maxProximitySpread`, `glowExponent`, `clickRadius`, `glowBoostPerClick`,
`maxPermanentGlow`) are read by `Rabbit.js` but are absent from the copy of
`animations.js` in the repository snapshot, so they are kept as abstract
parameters here. -/
structure RabbitConfig where
  width : ℚ
  height : ℚ
  scale : ℚ
  jumpDistance : ℚ
  mouseThreshold : ℚ
  glowRange : ℚ
  maxProximityGlow : ℚ
  maxProximitySpread : ℚ
  glowExponent : ℕ
  clickRadius : ℚ
  glowBoostPerClick : ℚ
  maxPermanentGlow : ℚ
  deriving Repr, DecidableEq

/-- Modelled from the spec: the concrete `RABBIT_CONFIG` value.  The
fields `width`, `height`, `scale`, `jumpDistance` and `mouseThreshold`
are taken verbatim from `src/config/animations.js`; the glow/click fields
are missing from that file in the snapshot, so their values are taken
from the spec (§8 scenarios: `clickRadius = 50`,
`glowBoostPerClick = 0.2`, `maxPermanentGlow = 1.0`; §4.2: an exponent
greater than one, here `2`, and representative positive glow
range/magnitudes). -/
def RABBIT_CONFIG : RabbitConfig where
  width := 32
  height := 64
  scale := 4
  jumpDistance := 300
  mouseThreshold := 150
  glowRange := 200
  maxProximityGlow := 1
  maxProximitySpread := 1
  glowExponent := 2
  clickRadius := 50
  glowBoostPerClick := 1/5
  maxPermanentGlow := 1

/-- Kind of a tracked event subscription pushed by
`Rabbit.enableMouseReaction` via `Sprite.addEventListener`
(`mousemove` for `mouseHandler`, `click` for `clickHandler`). -/
inductive HKind where
  | mouseMove
  | click
  deriving Repr, DecidableEq

/-- State of a `Rabbit` instance (including the `Sprite` base-class
fields).  Handler identity is modelled by a generation number
(`handlerGen`) stamped onto each handler pair installed by
`enableMouseReaction`, so that the `filter` in `disableMouseReaction`
removes exactly the entries holding the current handler. -/
@[ext] structure RabbitState where
  x : ℚ
  y : ℚ
  scale : ℚ
  hasElement : Bool
  isDestroyed : Bool
  isSpawning : Bool
  isJumping : Bool
  jumpCooldown : Bool
  isFirstJump : Bool
  colorRevealed : Bool
  lastDirection : ℤ
  permanentGlowBonus : ℚ
  lastMouse : Option (ℚ × ℚ)
  glowLoopRunning : Bool
  earlyMouseHandler : Bool
  mouseHandler : Option ℕ
  clickHandler : Option ℕ
  handlerGen : ℕ
  eventHandlers : List (HKind × ℕ)
  timers : List ℕ
  classSpawning : Bool
  classJumping : Bool
  classFlipped : Bool
  classColorFade : Bool
  classColorRevealed : Bool
  glowIntensity : ℚ
  glowSpread : ℚ
  deriving Repr, DecidableEq

/-- `new Rabbit({})` — the `Rabbit` constructor composed with the
`Sprite` constructor (no `x`/`y` options, so position starts at `(0,0)`;
`scale` comes from the config, mirroring the `super` call). -/
def mkRabbit (cfg : RabbitConfig) : RabbitState where
  x := 0
  y := 0
  scale := cfg.scale
  hasElement := false
  isDestroyed := false
  isSpawning := true
  isJumping := false
  jumpCooldown := false
  isFirstJump := true
  colorRevealed := false
  lastDirection := -1
  permanentGlowBonus := 0
  lastMouse := none
  glowLoopRunning := false
  earlyMouseHandler := false
  mouseHandler := none
  clickHandler := none
  handlerGen := 0
  eventHandlers := []
  timers := []
  classSpawning := false
  classJumping := false
  classFlipped := false
  classColorFade := false
  classColorRevealed := false
  glowIntensity := 0
  glowSpread := 0

/-- `Sprite.spawn` specialised to `Rabbit.createElement`: a no-op (with a
console warning) when an element already exists, otherwise a fresh
element with class `rabbit spawning flipped` is created and attached. -/
def spawn (s : RabbitState) : RabbitState :=
  if s.hasElement then s
  else { s with
    hasElement := true
    classSpawning := true
    classFlipped := true
    classJumping := false
    classColorFade := false
    classColorRevealed := false }

/-- `Rabbit.spawnAndDrop(x, y)`: store the position, spawn, install the
early mousemove tracker and start the glow animation loop (the
`animationend` subscription is untracked and is modelled by the separate
`spawnEnd` operation). -/
def spawnAndDrop (x y : ℚ) (s : RabbitState) : RabbitState :=
  let s := spawn { s with x := x, y := y }
  { s with earlyMouseHandler := true, glowLoopRunning := true }

/-- The `onSpawnEnd` handler for the `rabbit-spawn-drop` animation:
stop the glow loop, leave the `Spawning` phase and snap `y` to the
bottom of a viewport of height `H`. -/
def spawnEnd (cfg : RabbitConfig) (H : ℚ) (s : RabbitState) : RabbitState :=
  if s.hasElement then
    { s with
      glowLoopRunning := false
      isSpawning := false
      classSpawning := false
      y := H - cfg.height * s.scale }
  else s

/-- `Rabbit.disableMouseReaction`: stop the glow loop, drop the early
handler, and unsubscribe-and-untrack the mouse and click handlers. -/
def disableMouseReaction (s : RabbitState) : RabbitState :=
  let s := { s with glowLoopRunning := false, earlyMouseHandler := false }
  let s := match s.mouseHandler with
    | some g =>
        { s with
          eventHandlers := s.eventHandlers.filter
            (fun h => !(h.1 = HKind.mouseMove ∧ h.2 = g : Bool))
          mouseHandler := none }
    | none => s
  match s.clickHandler with
  | some g =>
      { s with
        eventHandlers := s.eventHandlers.filter
          (fun h => !(h.1 = HKind.click ∧ h.2 = g : Bool))
        clickHandler := none }
  | none => s

/-- `Sprite.destroy`: idempotent teardown of the base class — release all
tracked subscriptions, cancel all tracked timers, detach the element. -/
def spriteDestroy (s : RabbitState) : RabbitState :=
  if s.isDestroyed then s
  else { s with
    isDestroyed := true
    eventHandlers := []
    timers := []
    hasElement := false }

/-- `Rabbit.destroy`: `disableMouseReaction` followed by the base-class
destroy. -/
def destroy (s : RabbitState) : RabbitState :=
  spriteDestroy (disableMouseReaction s)

/-- `canGoLeft` in `Rabbit.jump`: `this.x - jumpDist >= edgeMargin`
with the fixed edge margin of 20 px. -/
def canGoLeft (cfg : RabbitConfig) (s : RabbitState) : Bool :=
  decide (20 ≤ s.x - cfg.jumpDistance)

/-- `canGoRight` in `Rabbit.jump`:
`this.x + jumpDist + visualWidth <= window.innerWidth - edgeMargin`,
where `visualWidth = RABBIT_CONFIG.width * this.scale` and `W` is the
viewport width. -/
def canGoRight (cfg : RabbitConfig) (W : ℚ) (s : RabbitState) : Bool :=
  decide (s.x + cfg.jumpDistance + cfg.width * s.scale ≤ W - 20)

/-- The biased random draw on line 140 of `Rabbit.js`:
`Math.random() < 1/3 ? -this.lastDirection : this.lastDirection`.
`r` is the value returned by `Math.random()` (uniform on `[0,1)`). -/
def drawDirection (last : ℤ) (r : ℚ) : ℤ :=
  if r < 1/3 then -last else last

/-- Shared tail of `Rabbit.jump` once a direction has been selected:
record `lastDirection`, flip the sprite according to the direction,
(re)start the `jumping` animation class and the glow loop. -/
def startJumpAnim (dir : ℤ) (s : RabbitState) : RabbitState :=
  { s with
    lastDirection := dir
    classFlipped := decide (dir = -1)
    classJumping := true
    glowLoopRunning := true }

/-- Result of the synchronous part of `Rabbit.jump`: either the promise
resolved immediately (no animation started), or an animation is running
with the chosen direction and the saved `isFirstJump` latch. -/
inductive JumpOutcome where
  | resolved (s : RabbitState)
  | animating (s : RabbitState) (dir : ℤ) (wasFirst : Bool)
  deriving Repr, DecidableEq

/-- Synchronous body of `Rabbit.jump` (lines 107–164 of `Rabbit.js`),
for a viewport of width `W` and a random draw `r`. -/
def jumpStart (cfg : RabbitConfig) (W r : ℚ) (s : RabbitState) : JumpOutcome :=
  if !s.hasElement ∨ s.isSpawning then .resolved s
  else if s.isFirstJump then
    let dir : ℤ := if canGoRight cfg W s then -1 else 1
    let s := { s with isFirstJump := false, classColorFade := true }
    .animating (startJumpAnim dir s) dir true
  else if !canGoLeft cfg s ∧ !canGoRight cfg W s then
    .resolved { s with isJumping := false }
  else
    let dir : ℤ :=
      if !canGoLeft cfg s then -1
      else if !canGoRight cfg W s then 1
      else drawDirection s.lastDirection r
    .animating (startJumpAnim dir s) dir false

/-- The `onJumpEnd` handler for the `rabbit-jump-sprite` animation
(lines 167–193 of `Rabbit.js`): move the stored position by the signed
jump distance, stop the glow loop, latch the colour reveal on the first
jump, clear the jumping flag and resolve. -/
def onJumpEnd (cfg : RabbitConfig) (dir : ℤ) (wasFirst : Bool)
    (s : RabbitState) : RabbitState :=
  let s := { s with
    x := s.x - cfg.jumpDistance * dir
    classJumping := false
    glowLoopRunning := false }
  let s := if wasFirst then
    { s with
      classColorFade := false
      classColorRevealed := true
      colorRevealed := true }
    else s
  { s with isJumping := false }

/-- One full life cycle of a `Rabbit.jump()` call: the synchronous body
followed, when an animation was started, by its completion handler. -/
def jumpComplete (cfg : RabbitConfig) (W r : ℚ) (s : RabbitState) : RabbitState :=
  match jumpStart cfg W r s with
  | .resolved s' => s'
  | .animating s' dir wasFirst => onJumpEnd cfg dir wasFirst s'

/-- `proximityFactor` computed by `Rabbit.updateGlow`: `0` at or beyond
`glowRange`, otherwise `(1 - d/glowRange) ^ glowExponent`. -/
def proximityFactor (cfg : RabbitConfig) (d : ℚ) : ℚ :=
  if d < cfg.glowRange then (1 - d / cfg.glowRange) ^ cfg.glowExponent else 0

/-- `Rabbit.updateGlow(distance)`: writes the glow intensity and spread
style parameters; a no-op when the element is absent. -/
def updateGlow (cfg : RabbitConfig) (d : ℚ) (s : RabbitState) : RabbitState :=
  if s.hasElement then
    { s with
      glowIntensity :=
        1 + proximityFactor cfg d * cfg.maxProximityGlow + s.permanentGlowBonus
      glowSpread := 1 + proximityFactor cfg d * cfg.maxProximitySpread }
  else s

/-- The `clickHandler` installed by `enableMouseReaction`, applied to a
click event whose distance to the rendered bottom-center is `d`: within
`clickRadius`, bump `permanentGlowBonus` by `glowBoostPerClick` clamped
at `maxPermanentGlow` and immediately recompute the glow. -/
def clickStep (cfg : RabbitConfig) (d : ℚ) (s : RabbitState) : RabbitState :=
  if d < cfg.clickRadius then
    updateGlow cfg d
      { s with
        permanentGlowBonus :=
          min (s.permanentGlowBonus + cfg.glowBoostPerClick) cfg.maxPermanentGlow }
  else s

/-- The `mouseHandler` installed by `enableMouseReaction`, applied to a
pointer-move event at `(mx, my)` whose distance to the rendered
bottom-center is `d`.  Returns the new state together with a flag saying
whether this event started a jump (the handler then calls the async
`jump()`, which is modelled separately). -/
def mouseMoveStep (cfg : RabbitConfig) (threshold mx my d : ℚ)
    (s : RabbitState) : RabbitState × Bool :=
  let s := { s with lastMouse := some (mx, my) }
  let s := if !s.glowLoopRunning then updateGlow cfg d s else s
  if s.isSpawning ∨ s.isJumping ∨ s.jumpCooldown then (s, false)
  else if d < threshold then ({ s with isJumping := true }, true)
  else (s, false)

/-- `Rabbit.enableMouseReaction(threshold)`: a no-op without an element;
otherwise drop the early handler and install (and track) a fresh
mousemove/click handler pair.  Handler identity is a fresh generation
number. -/
def enableMouseReaction (s : RabbitState) : RabbitState :=
  if s.hasElement then
    let g := s.handlerGen
    { s with
      earlyMouseHandler := false
      mouseHandler := some g
      clickHandler := some g
      handlerGen := g + 1
      eventHandlers :=
        s.eventHandlers ++ [(HKind.mouseMove, g), (HKind.click, g)] }
  else s

/-- Operations on the actor that the host event loop can interleave.
Pointer events carry the distance `d` to the actor's rendered
bottom-center (the DOM bounding box is not modelled, so the distance is
an input); a `jumpOp` is one full `jump()` life cycle with viewport
width `W` and random draw `r`. -/
inductive Op where
  | move (mx my d : ℚ)
  | click (d : ℚ)
  | jumpOp (W r : ℚ)
  | spawnOp
  | spawnAndDropOp (x y : ℚ)
  | spawnEndOp (H : ℚ)
  | enableMouse
  | disableMouse
  | destroyOp
  deriving Repr, DecidableEq

/-- Step function of the event-loop model.  Pointer events reach the
actor's handlers only while those handlers are subscribed. -/
def step (cfg : RabbitConfig) (o : Op) (s : RabbitState) : RabbitState :=
  match o with
  | .move mx my d =>
      match s.mouseHandler with
      | some _ => (mouseMoveStep cfg cfg.mouseThreshold mx my d s).1
      | none => s
  | .click d =>
      match s.clickHandler with
      | some _ => clickStep cfg d s
      | none => s
  | .jumpOp W r => jumpComplete cfg W r s
  | .spawnOp => spawn s
  | .spawnAndDropOp x y => spawnAndDrop x y s
  | .spawnEndOp H => spawnEnd cfg H s
  | .enableMouse => enableMouseReaction s
  | .disableMouse => disableMouseReaction s
  | .destroyOp => destroy s

/-- Folding a trace of operations over a state. -/
def run (cfg : RabbitConfig) (s : RabbitState) (ops : List Op) : RabbitState :=
  ops.foldl (fun s o => step cfg o s) s

/-- Scenario state of spec §8: an actor spawned at x = 100 that has finished its spawn-drop in a viewport of height 800, now idle and awaiting its first jump. -/
def sIdle100 : RabbitState :=
  spawnEnd RABBIT_CONFIG 800 (spawnAndDrop 100 0 (mkRabbit RABBIT_CONFIG))

/-- The scenario state with mouse reaction enabled, so that the tracked mousemove and click handlers are installed. -/
def sClicks : RabbitState := enableMouseReaction sIdle100

/-- A non-first-jump idle state at x = 100; in a 500 px viewport neither jump direction is feasible. -/
def sTrapped : RabbitState :=
  { mkRabbit RABBIT_CONFIG with
      hasElement := true, isSpawning := false, isFirstJump := false, x := 100 }

/-- An idle state at x = 100 that has never jumped; in a 500 px viewport neither jump direction is feasible. -/
def sTrapFirst : RabbitState :=
  { mkRabbit RABBIT_CONFIG with hasElement := true, isSpawning := false, x := 100 }

/-- Operations that call Sprite.spawn (directly or via spawnAndDrop). -/
def respawning : Op → Bool
  | Op.spawnOp => true
  | Op.spawnAndDropOp _ _ => true
  | _ => false

/-- updateGlow leaves permanentGlowBonus untouched. -/
theorem updateGlow_permanentGlowBonus (cfg : RabbitConfig) (d : ℚ) (s : RabbitState) :
    (updateGlow cfg d s).permanentGlowBonus = s.permanentGlowBonus := by
  unfold updateGlow; split <;> rfl

/-- updateGlow leaves isJumping untouched. -/
theorem updateGlow_isJumping (cfg : RabbitConfig) (d : ℚ) (s : RabbitState) :
    (updateGlow cfg d s).isJumping = s.isJumping := by
  unfold updateGlow; split <;> rfl

/-- updateGlow leaves isSpawning untouched. -/
theorem updateGlow_isSpawning (cfg : RabbitConfig) (d : ℚ) (s : RabbitState) :
    (updateGlow cfg d s).isSpawning = s.isSpawning := by
  unfold updateGlow; split <;> rfl

/-- updateGlow leaves jumpCooldown untouched. -/
theorem updateGlow_jumpCooldown (cfg : RabbitConfig) (d : ℚ) (s : RabbitState) :
    (updateGlow cfg d s).jumpCooldown = s.jumpCooldown := by
  unfold updateGlow; split <;> rfl

/-- updateGlow only writes the two glow style parameters. -/
theorem updateGlow_fields (cfg : RabbitConfig) (d : ℚ) (s : RabbitState) :
    (updateGlow cfg d s).colorRevealed = s.colorRevealed ∧
    (updateGlow cfg d s).hasElement = s.hasElement ∧
    (updateGlow cfg d s).isDestroyed = s.isDestroyed ∧
    (updateGlow cfg d s).isFirstJump = s.isFirstJump := by
  unfold updateGlow
  split <;> simp

/-- The mousemove handler starts a jump exactly when the actor is neither spawning, jumping nor cooling down and the pointer distance is below the threshold. -/
theorem mouseMoveStep_snd (cfg : RabbitConfig) (th mx my d : ℚ) (s : RabbitState) :
    (mouseMoveStep cfg th mx my d s).2 =
      (!s.isSpawning && !s.isJumping && !s.jumpCooldown && decide (d < th)) := by
  by_cases hg : s.glowLoopRunning <;>
  by_cases hb : s.isSpawning <;>
  by_cases hj : s.isJumping <;>
  by_cases hc : s.jumpCooldown <;>
  by_cases hth : d < th
  all_goals
    simp [mouseMoveStep, hg, hb, hj, hc, hth, updateGlow_isJumping, updateGlow_isSpawning,
      updateGlow_jumpCooldown]

/-- After the mousemove handler runs, the jumping flag is set iff it already was or the handler just started a jump. -/
theorem mouseMoveStep_fst_isJumping (cfg : RabbitConfig) (th mx my d : ℚ) (s : RabbitState) :
    (mouseMoveStep cfg th mx my d s).1.isJumping =
      (s.isJumping || (!s.isSpawning && !s.isJumping && !s.jumpCooldown && decide (d < th))) := by
  by_cases hg : s.glowLoopRunning <;>
  by_cases hb : s.isSpawning <;>
  by_cases hj : s.isJumping <;>
  by_cases hc : s.jumpCooldown <;>
  by_cases hth : d < th
  all_goals
    simp [mouseMoveStep, hg, hb, hj, hc, hth, updateGlow_isJumping, updateGlow_isSpawning,
      updateGlow_jumpCooldown]

/-- Fields of the actor state that the mousemove handler never touches. -/
theorem mouseMoveStep_fst_fields (cfg : RabbitConfig) (th mx my d : ℚ) (s : RabbitState) :
    (mouseMoveStep cfg th mx my d s).1.permanentGlowBonus = s.permanentGlowBonus ∧
    (mouseMoveStep cfg th mx my d s).1.colorRevealed = s.colorRevealed ∧
    (mouseMoveStep cfg th mx my d s).1.hasElement = s.hasElement ∧
    (mouseMoveStep cfg th mx my d s).1.isDestroyed = s.isDestroyed ∧
    (mouseMoveStep cfg th mx my d s).1.isFirstJump = s.isFirstJump := by
  by_cases hg : s.glowLoopRunning <;>
  by_cases hb : s.isSpawning <;>
  by_cases hj : s.isJumping <;>
  by_cases hc : s.jumpCooldown <;>
  by_cases hth : d < th
  all_goals
    simp [mouseMoveStep, hg, hb, hj, hc, hth, updateGlow_permanentGlowBonus,
      updateGlow_isJumping, updateGlow_isSpawning, updateGlow_jumpCooldown, updateGlow_fields]

/-- Fields of the actor state that the click handler never touches. -/
theorem clickStep_fields (cfg : RabbitConfig) (d : ℚ) (s : RabbitState) :
    (clickStep cfg d s).colorRevealed = s.colorRevealed ∧
    (clickStep cfg d s).hasElement = s.hasElement ∧
    (clickStep cfg d s).isDestroyed = s.isDestroyed ∧
    (clickStep cfg d s).isFirstJump = s.isFirstJump := by
  unfold clickStep
  split <;> simp [updateGlow_fields]

/-- Fields of the actor state that Sprite.spawn never touches. -/
theorem spawn_fields (s : RabbitState) :
    (spawn s).permanentGlowBonus = s.permanentGlowBonus ∧
    (spawn s).colorRevealed = s.colorRevealed ∧
    (spawn s).isDestroyed = s.isDestroyed ∧
    (spawn s).isFirstJump = s.isFirstJump := by
  unfold spawn
  split <;> simp

/-- Fields of the actor state that spawnAndDrop never touches. -/
theorem spawnAndDrop_fields (x y : ℚ) (s : RabbitState) :
    (spawnAndDrop x y s).permanentGlowBonus = s.permanentGlowBonus ∧
    (spawnAndDrop x y s).colorRevealed = s.colorRevealed ∧
    (spawnAndDrop x y s).isDestroyed = s.isDestroyed ∧
    (spawnAndDrop x y s).isFirstJump = s.isFirstJump := by
  unfold spawnAndDrop spawn
  split <;> simp

/-- Fields of the actor state that the spawn-drop completion handler never touches. -/
theorem spawnEnd_fields (cfg : RabbitConfig) (H : ℚ) (s : RabbitState) :
    (spawnEnd cfg H s).permanentGlowBonus = s.permanentGlowBonus ∧
    (spawnEnd cfg H s).colorRevealed = s.colorRevealed ∧
    (spawnEnd cfg H s).hasElement = s.hasElement ∧
    (spawnEnd cfg H s).isDestroyed = s.isDestroyed ∧
    (spawnEnd cfg H s).isFirstJump = s.isFirstJump := by
  unfold spawnEnd
  split <;> simp

/-- Fields of the actor state that enableMouseReaction never touches. -/
theorem enableMouseReaction_fields (s : RabbitState) :
    (enableMouseReaction s).permanentGlowBonus = s.permanentGlowBonus ∧
    (enableMouseReaction s).colorRevealed = s.colorRevealed ∧
    (enableMouseReaction s).hasElement = s.hasElement ∧
    (enableMouseReaction s).isDestroyed = s.isDestroyed ∧
    (enableMouseReaction s).isFirstJump = s.isFirstJump := by
  unfold enableMouseReaction
  split <;> simp

/-- Fields of the actor state that disableMouseReaction never touches. -/
theorem disableMouseReaction_fields (s : RabbitState) :
    (disableMouseReaction s).permanentGlowBonus = s.permanentGlowBonus ∧
    (disableMouseReaction s).colorRevealed = s.colorRevealed ∧
    (disableMouseReaction s).hasElement = s.hasElement ∧
    (disableMouseReaction s).isDestroyed = s.isDestroyed ∧
    (disableMouseReaction s).isFirstJump = s.isFirstJump := by
  unfold disableMouseReaction
  rcases hm : s.mouseHandler with _ | g <;> rcases hc : s.clickHandler with _ | g' <;>
    simp [hm, hc]

/-- disableMouseReaction always leaves both handlers unsubscribed, the glow loop stopped and the early handler removed. -/
theorem disableMouseReaction_handlers (s : RabbitState) :
    (disableMouseReaction s).mouseHandler = none ∧
    (disableMouseReaction s).clickHandler = none ∧
    (disableMouseReaction s).glowLoopRunning = false ∧
    (disableMouseReaction s).earlyMouseHandler = false := by
  unfold disableMouseReaction
  rcases hm : s.mouseHandler with _ | g <;> rcases hc : s.clickHandler with _ | g' <;>
    simp [hm, hc]

/-- Fields of the actor state that Sprite.destroy never touches. -/
theorem spriteDestroy_fields (s : RabbitState) :
    (spriteDestroy s).permanentGlowBonus = s.permanentGlowBonus ∧
    (spriteDestroy s).colorRevealed = s.colorRevealed ∧
    (spriteDestroy s).isFirstJump = s.isFirstJump ∧
    (spriteDestroy s).mouseHandler = s.mouseHandler ∧
    (spriteDestroy s).clickHandler = s.clickHandler ∧
    (spriteDestroy s).glowLoopRunning = s.glowLoopRunning ∧
    (spriteDestroy s).earlyMouseHandler = s.earlyMouseHandler := by
  unfold spriteDestroy
  split <;> simp

/-- A full jump life cycle never changes the glow bonus, the element or the destroyed flag. -/
theorem jumpComplete_fields (cfg : RabbitConfig) (W r : ℚ) (s : RabbitState) :
    (jumpComplete cfg W r s).permanentGlowBonus = s.permanentGlowBonus ∧
    (jumpComplete cfg W r s).hasElement = s.hasElement ∧
    (jumpComplete cfg W r s).isDestroyed = s.isDestroyed := by
  unfold jumpComplete jumpStart onJumpEnd startJumpAnim
  split_ifs <;> simp

/-- A full jump life cycle reveals the colours exactly when the actor could actually jump (element present, not spawning) and this was the first jump; otherwise the flag is unchanged. -/
theorem jumpComplete_colorRevealed (cfg : RabbitConfig) (W r : ℚ) (s : RabbitState) :
    (jumpComplete cfg W r s).colorRevealed =
      (s.colorRevealed || (s.hasElement && !s.isSpawning && s.isFirstJump)) := by
  by_cases h1 : s.hasElement <;> by_cases h2 : s.isSpawning <;> by_cases h3 : s.isFirstJump
  all_goals
    unfold jumpComplete jumpStart onJumpEnd startJumpAnim
  all_goals
    simp [h1, h2, h3]
  all_goals
    split_ifs <;> simp

/-- One event-loop operation keeps permanentGlowBonus within its bounds and never decreases it. -/
theorem step_bonus (cfg : RabbitConfig) (o : Op) (s : RabbitState)
    (hB : 0 ≤ cfg.glowBoostPerClick) (hM : 0 ≤ cfg.maxPermanentGlow)
    (h0 : 0 ≤ s.permanentGlowBonus) (h1 : s.permanentGlowBonus ≤ cfg.maxPermanentGlow) :
    0 ≤ (step cfg o s).permanentGlowBonus ∧
    (step cfg o s).permanentGlowBonus ≤ cfg.maxPermanentGlow ∧
    s.permanentGlowBonus ≤ (step cfg o s).permanentGlowBonus := by
  cases o with
  | move mx my d =>
      rw [step]
      rcases hm : s.mouseHandler with _ | g
      · exact ⟨h0, h1, le_refl _⟩
      · rw [(mouseMoveStep_fst_fields cfg cfg.mouseThreshold mx my d s).1]
        exact ⟨h0, h1, le_refl _⟩
  | click d =>
      rw [step]
      rcases hc : s.clickHandler with _ | g
      · exact ⟨h0, h1, le_refl _⟩
      · unfold clickStep
        split_ifs with hd
        · rw [updateGlow_permanentGlowBonus]
          refine ⟨le_min (by linarith) hM, min_le_right _ _, le_min (by linarith) h1⟩
        · exact ⟨h0, h1, le_refl _⟩
  | jumpOp W r =>
      rw [step, (jumpComplete_fields cfg W r s).1]
      exact ⟨h0, h1, le_refl _⟩
  | spawnOp =>
      rw [step, (spawn_fields s).1]
      exact ⟨h0, h1, le_refl _⟩
  | spawnAndDropOp x y =>
      rw [step, (spawnAndDrop_fields x y s).1]
      exact ⟨h0, h1, le_refl _⟩
  | spawnEndOp H =>
      rw [step, (spawnEnd_fields cfg H s).1]
      exact ⟨h0, h1, le_refl _⟩
  | enableMouse =>
      rw [step, (enableMouseReaction_fields s).1]
      exact ⟨h0, h1, le_refl _⟩
  | disableMouse =>
      rw [step, (disableMouseReaction_fields s).1]
      exact ⟨h0, h1, le_refl _⟩
  | destroyOp =>
      rw [step]
      unfold destroy
      rw [(spriteDestroy_fields (disableMouseReaction s)).1,
        (disableMouseReaction_fields s).1]
      exact ⟨h0, h1, le_refl _⟩

/-- Any trace of operations keeps permanentGlowBonus within its bounds and never decreases it. -/
theorem run_bonus (cfg : RabbitConfig)
    (hB : 0 ≤ cfg.glowBoostPerClick) (hM : 0 ≤ cfg.maxPermanentGlow) :
    ∀ (ops : List Op) (s : RabbitState),
      0 ≤ s.permanentGlowBonus → s.permanentGlowBonus ≤ cfg.maxPermanentGlow →
      0 ≤ (run cfg s ops).permanentGlowBonus ∧
      (run cfg s ops).permanentGlowBonus ≤ cfg.maxPermanentGlow ∧
      s.permanentGlowBonus ≤ (run cfg s ops).permanentGlowBonus := by
  intro ops
  induction ops with
  | nil =>
      intro s h0 h1
      exact ⟨h0, h1, le_refl _⟩
  | cons o t ih =>
      intro s h0 h1
      obtain ⟨g0, g1, g2⟩ := step_bonus cfg o s hB hM h0 h1
      obtain ⟨k0, k1, k2⟩ := ih (step cfg o s) g0 g1
      exact ⟨k0, k1, le_trans g2 k2⟩

/-- Sprite.destroy is idempotent on its own. -/
theorem spriteDestroy_idem (s : RabbitState) :
    spriteDestroy (spriteDestroy s) = spriteDestroy s := by
  unfold spriteDestroy
  by_cases h : s.isDestroyed = true
  · rw [if_pos h, if_pos h]
  · rw [if_neg h]
    rfl

/-- disableMouseReaction is the identity once there is nothing left to disable. -/
theorem disableMouseReaction_noop (s : RabbitState)
    (h1 : s.glowLoopRunning = false) (h2 : s.earlyMouseHandler = false)
    (h3 : s.mouseHandler = none) (h4 : s.clickHandler = none) :
    disableMouseReaction s = s := by
  cases s
  simp_all [disableMouseReaction]

/-- Rabbit.destroy is idempotent. -/
theorem destroy_destroy (s : RabbitState) : destroy (destroy s) = destroy s := by
  unfold destroy
  rw [disableMouseReaction_noop (spriteDestroy (disableMouseReaction s))
    ((spriteDestroy_fields (disableMouseReaction s)).2.2.2.2.2.1.trans
      (disableMouseReaction_handlers s).2.2.1)
    ((spriteDestroy_fields (disableMouseReaction s)).2.2.2.2.2.2.trans
      (disableMouseReaction_handlers s).2.2.2)
    ((spriteDestroy_fields (disableMouseReaction s)).2.2.2.1.trans
      (disableMouseReaction_handlers s).1)
    ((spriteDestroy_fields (disableMouseReaction s)).2.2.2.2.1.trans
      (disableMouseReaction_handlers s).2.1)]
  exact spriteDestroy_idem (disableMouseReaction s)

/-- The first destroy call clears all tracked subscriptions and timers and detaches the element. -/
theorem destroy_teardown (s : RabbitState) (h : s.isDestroyed = false) :
    (destroy s).eventHandlers = [] ∧ (destroy s).timers = [] ∧
    (destroy s).hasElement = false ∧ (destroy s).isDestroyed = true := by
  unfold destroy spriteDestroy
  rw [if_neg]
  · simp
  · rw [(disableMouseReaction_fields s).2.2.2.1, h]
    simp

/-- enableMouseReaction is a no-op without an element. -/
theorem enableMouseReaction_noop (s : RabbitState) (h : s.hasElement = false) :
    enableMouseReaction s = s := by
  unfold enableMouseReaction
  rw [if_neg]
  rw [h]
  simp

/-- Every operation other than spawn and spawnAndDrop preserves the torn-down state. -/
theorem step_down (cfg : RabbitConfig) (o : Op) (s : RabbitState)
    (ho : respawning o = false)
    (h1 : s.hasElement = false) (h2 : s.isDestroyed = true) :
    (step cfg o s).hasElement = false ∧ (step cfg o s).isDestroyed = true := by
  cases o with
  | move mx my d =>
      rw [step]
      rcases hm : s.mouseHandler with _ | g
      · exact ⟨h1, h2⟩
      · rw [(mouseMoveStep_fst_fields cfg cfg.mouseThreshold mx my d s).2.2.1,
          (mouseMoveStep_fst_fields cfg cfg.mouseThreshold mx my d s).2.2.2.1]
        exact ⟨h1, h2⟩
  | click d =>
      rw [step]
      rcases hc : s.clickHandler with _ | g
      · exact ⟨h1, h2⟩
      · rw [(clickStep_fields cfg d s).2.1, (clickStep_fields cfg d s).2.2.1]
        exact ⟨h1, h2⟩
  | jumpOp W r =>
      rw [step, (jumpComplete_fields cfg W r s).2.1, (jumpComplete_fields cfg W r s).2.2]
      exact ⟨h1, h2⟩
  | spawnOp => simp [respawning] at ho
  | spawnAndDropOp x y => simp [respawning] at ho
  | spawnEndOp H =>
      rw [step, (spawnEnd_fields cfg H s).2.2.1, (spawnEnd_fields cfg H s).2.2.2.1]
      exact ⟨h1, h2⟩
  | enableMouse =>
      rw [step, (enableMouseReaction_fields s).2.2.1,
        (enableMouseReaction_fields s).2.2.2.1]
      exact ⟨h1, h2⟩
  | disableMouse =>
      rw [step, (disableMouseReaction_fields s).2.2.1,
        (disableMouseReaction_fields s).2.2.2.1]
      exact ⟨h1, h2⟩
  | destroyOp =>
      rw [step]
      unfold destroy spriteDestroy
      rw [if_pos ((disableMouseReaction_fields s).2.2.2.1.trans h2)]
      rw [(disableMouseReaction_fields s).2.2.1, (disableMouseReaction_fields s).2.2.2.1]
      exact ⟨h1, h2⟩

/-- Claim C1: for every jump() call after the first jump, with stored position p, jump distance J, visual width Vw, viewport width W and edge margin 20 (direction sign convention of the source: -1 is right, 1 is left): if p - J < 20 the chosen direction is right; if p + J + Vw > W - 20 the chosen direction is left; and if both hold simultaneously, jump() resolves immediately with the stored position unchanged and the jumping flag cleared, all other state intact. -/
theorem nonfirst_jump_edge_policy (cfg : RabbitConfig) (W r : ℚ) (s : RabbitState)
    (hel : s.hasElement = true) (hsp : s.isSpawning = false)
    (hfj : s.isFirstJump = false) :
    (∀ s' dir wf, jumpStart cfg W r s = JumpOutcome.animating s' dir wf →
      (s.x - cfg.jumpDistance < 20 → dir = -1) ∧
      (W - 20 < s.x + cfg.jumpDistance + cfg.width * s.scale → dir = 1)) ∧
    (s.x - cfg.jumpDistance < 20 →
      W - 20 < s.x + cfg.jumpDistance + cfg.width * s.scale →
      jumpStart cfg W r s = JumpOutcome.resolved { s with isJumping := false }) := by
  have hLiff : canGoLeft cfg s = false ↔ s.x - cfg.jumpDistance < 20 := by
    simp [canGoLeft]
  have hRiff : canGoRight cfg W s = false ↔
      W - 20 < s.x + cfg.jumpDistance + cfg.width * s.scale := by
    simp [canGoRight]
  constructor
  · intro s' dir wf hrun
    rw [jumpStart] at hrun
    simp [hel, hsp, hfj] at hrun
    rcases hl : canGoLeft cfg s <;> rcases hr : canGoRight cfg W s <;>
      simp [hl, hr] at hrun
    · exact ⟨fun _ => hrun.2.1.symm, fun hx => absurd (hRiff.mpr hx) (by simp [hr])⟩
    · exact ⟨fun hx => absurd (hLiff.mpr hx) (by simp [hl]), fun _ => hrun.2.1.symm⟩
    · exact ⟨fun hx => absurd (hLiff.mpr hx) (by simp [hl]),
        fun hx => absurd (hRiff.mpr hx) (by simp [hr])⟩
  · intro h1 h2
    rw [jumpStart]
    simp [hel, hsp, hfj, hLiff.mpr h1, hRiff.mpr h2]

theorem nonfirst_jump_edge_policy_witness :
    jumpStart RABBIT_CONFIG 500 0 sTrapped =
      JumpOutcome.resolved { sTrapped with isJumping := false } :=
  (nonfirst_jump_edge_policy RABBIT_CONFIG 500 0 sTrapped rfl rfl rfl).2
    (by norm_num [sTrapped, mkRabbit, RABBIT_CONFIG])
    (by norm_num [sTrapped, mkRabbit, RABBIT_CONFIG])

/-- Claim C2: on the first-ever jump() call from an idle spawned state the chosen direction is right (-1) whenever the right direction is feasible and left (1) otherwise, the color-fade overlay is applied at jump start and the reveal flag is still unchanged then; in the concrete scenario of spawning at x = 100 in a 1000 px viewport with jumpDistance 300 and edge margin 20, the first jump chooses right, the stored position after the completion signal is 100 - (-1)*300 = 400, and colorRevealed becomes true only with that completion signal. -/
theorem first_jump_prefers_right (cfg : RabbitConfig) (W r : ℚ) (s : RabbitState)
    (hel : s.hasElement = true) (hsp : s.isSpawning = false)
    (hfj : s.isFirstJump = true) :
    (∃ s', jumpStart cfg W r s =
        JumpOutcome.animating s' (if canGoRight cfg W s then (-1 : ℤ) else 1) true ∧
        s'.classColorFade = true ∧ s'.colorRevealed = s.colorRevealed) ∧
    (∀ s' dir wf, jumpStart RABBIT_CONFIG 1000 0 sIdle100 = JumpOutcome.animating s' dir wf →
        dir = -1 ∧ s'.colorRevealed = false) ∧
    (jumpComplete RABBIT_CONFIG 1000 0 sIdle100).x = 400 ∧
    (jumpComplete RABBIT_CONFIG 1000 0 sIdle100).colorRevealed = true := by
  refine ⟨?_, ?_, ?_, ?_⟩
  · rw [jumpStart]
    simp [hel, hsp, hfj, startJumpAnim]
  · intro s' dir wf h
    rw [jumpStart] at h
    norm_num [sIdle100, spawnEnd, spawnAndDrop, spawn, mkRabbit, canGoRight, startJumpAnim,
      RABBIT_CONFIG] at h
    exact ⟨h.2.1.symm, by simp [h.1.symm]⟩
  · norm_num [jumpComplete, jumpStart, onJumpEnd, startJumpAnim, canGoLeft, canGoRight,
      drawDirection, sIdle100, spawnEnd, spawnAndDrop, spawn, mkRabbit, RABBIT_CONFIG]
  · norm_num [jumpComplete, jumpStart, onJumpEnd, startJumpAnim, canGoLeft, canGoRight,
      drawDirection, sIdle100, spawnEnd, spawnAndDrop, spawn, mkRabbit, RABBIT_CONFIG]

theorem first_jump_prefers_right_witness :
    (jumpComplete RABBIT_CONFIG 1000 0 sIdle100).x = 400 ∧
    (jumpComplete RABBIT_CONFIG 1000 0 sIdle100).colorRevealed = true :=
  ⟨(first_jump_prefers_right RABBIT_CONFIG 1000 0 sIdle100 rfl rfl rfl).2.2.1,
   (first_jump_prefers_right RABBIT_CONFIG 1000 0 sIdle100 rfl rfl rfl).2.2.2⟩

/-- Claim C3: permanentGlowBonus starts at 0, and along every sequence of operations it is never negative, never exceeds maxPermanentGlow and is non-decreasing; it changes only on click events whose distance to the rendered bottom-center is below clickRadius; and five qualifying clicks with glowBoostPerClick 0.2 and maxPermanentGlow 1.0 yield exactly 1.0. -/
theorem permanent_glow_invariants (cfg : RabbitConfig)
    (hB : 0 ≤ cfg.glowBoostPerClick) (hM : 0 ≤ cfg.maxPermanentGlow) :
    (mkRabbit cfg).permanentGlowBonus = 0 ∧
    (∀ (ops : List Op) (s : RabbitState),
       0 ≤ s.permanentGlowBonus → s.permanentGlowBonus ≤ cfg.maxPermanentGlow →
       0 ≤ (run cfg s ops).permanentGlowBonus ∧
       (run cfg s ops).permanentGlowBonus ≤ cfg.maxPermanentGlow ∧
       s.permanentGlowBonus ≤ (run cfg s ops).permanentGlowBonus) ∧
    (∀ (o : Op) (s : RabbitState),
       (step cfg o s).permanentGlowBonus ≠ s.permanentGlowBonus →
       ∃ d, o = Op.click d ∧ d < cfg.clickRadius) ∧
    (run RABBIT_CONFIG sClicks (List.replicate 5 (Op.click 0))).permanentGlowBonus = 1 := by
  refine ⟨rfl, run_bonus cfg hB hM, ?_, ?_⟩
  · intro o s hne
    cases o with
    | move mx my d =>
        exfalso
        apply hne
        rw [step]
        rcases hm : s.mouseHandler with _ | g
        · rfl
        · exact (mouseMoveStep_fst_fields cfg cfg.mouseThreshold mx my d s).1
    | click d =>
        by_cases hd : d < cfg.clickRadius
        · exact ⟨d, rfl, hd⟩
        · exfalso
          apply hne
          rw [step]
          rcases hc : s.clickHandler with _ | g
          · rfl
          · unfold clickStep
            rw [if_neg hd]
    | jumpOp W r =>
        exact absurd (by rw [step, (jumpComplete_fields cfg W r s).1]) hne
    | spawnOp =>
        exact absurd (by rw [step, (spawn_fields s).1]) hne
    | spawnAndDropOp x y =>
        exact absurd (by rw [step, (spawnAndDrop_fields x y s).1]) hne
    | spawnEndOp H =>
        exact absurd (by rw [step, (spawnEnd_fields cfg H s).1]) hne
    | enableMouse =>
        exact absurd (by rw [step, (enableMouseReaction_fields s).1]) hne
    | disableMouse =>
        exact absurd (by rw [step, (disableMouseReaction_fields s).1]) hne
    | destroyOp =>
        refine absurd ?_ hne
        rw [step]
        unfold destroy
        rw [(spriteDestroy_fields (disableMouseReaction s)).1,
          (disableMouseReaction_fields s).1]
  · norm_num [run, step, sClicks, sIdle100, spawnEnd, spawnAndDrop, spawn, mkRabbit,
      enableMouseReaction, clickStep, updateGlow, proximityFactor, RABBIT_CONFIG,
      List.replicate]

theorem permanent_glow_invariants_witness :
    (run RABBIT_CONFIG sClicks (List.replicate 5 (Op.click 0))).permanentGlowBonus = 1 :=
  (permanent_glow_invariants RABBIT_CONFIG (by norm_num [RABBIT_CONFIG])
    (by norm_num [RABBIT_CONFIG])).2.2.2

/-- Claim C4: the proximity factor is 0 when the distance d is at least glowRange and (1 - d/glowRange)^glowExponent otherwise; the glow intensity written to the visual layer is 1 + t*maxProximityGlow + permanentGlowBonus; at the boundaries, d at or beyond glowRange yields exactly 1 + permanentGlowBonus and d = 0 yields exactly 1 + maxProximityGlow + permanentGlowBonus. -/
theorem glow_formula (cfg : RabbitConfig) (d : ℚ) (s : RabbitState) :
    (cfg.glowRange ≤ d → proximityFactor cfg d = 0) ∧
    (d < cfg.glowRange →
       proximityFactor cfg d = (1 - d / cfg.glowRange) ^ cfg.glowExponent) ∧
    (s.hasElement = true →
       (updateGlow cfg d s).glowIntensity =
         1 + proximityFactor cfg d * cfg.maxProximityGlow + s.permanentGlowBonus) ∧
    (s.hasElement = true → cfg.glowRange ≤ d →
       (updateGlow cfg d s).glowIntensity = 1 + s.permanentGlowBonus) ∧
    (s.hasElement = true → 0 < cfg.glowRange →
       (updateGlow cfg 0 s).glowIntensity =
         1 + cfg.maxProximityGlow + s.permanentGlowBonus) := by
  have hz : cfg.glowRange ≤ d → proximityFactor cfg d = 0 := by
    intro h
    unfold proximityFactor
    rw [if_neg (not_lt.mpr h)]
  refine ⟨hz, ?_, ?_, ?_, ?_⟩
  · intro h
    unfold proximityFactor
    rw [if_pos h]
  · intro h
    unfold updateGlow
    rw [if_pos h]
  · intro h hd
    unfold updateGlow
    rw [if_pos h]
    simp [hz hd]
  · intro h hgr
    unfold updateGlow
    rw [if_pos h]
    simp only [proximityFactor, if_pos hgr, zero_div, sub_zero, one_pow, one_mul]

theorem glow_formula_witness :
    (updateGlow RABBIT_CONFIG 250 sIdle100).glowIntensity = 1 + sIdle100.permanentGlowBonus ∧
    (updateGlow RABBIT_CONFIG 0 sIdle100).glowIntensity =
      1 + RABBIT_CONFIG.maxProximityGlow + sIdle100.permanentGlowBonus :=
  ⟨(glow_formula RABBIT_CONFIG 250 sIdle100).2.2.2.1 rfl (by norm_num [RABBIT_CONFIG]),
   (glow_formula RABBIT_CONFIG 0 sIdle100).2.2.2.2 rfl (by norm_num [RABBIT_CONFIG])⟩

/-- Claim C5: colorRevealed is false from construction, any operation preserves it once true, it can only become true through a jump operation taken from a state with the first-jump latch still set (on a spawned, non-spawning actor), and it is still unchanged when the jump animation merely starts - it flips only with the completion signal. -/
theorem color_reveal_latch (cfg : RabbitConfig) :
    (mkRabbit cfg).colorRevealed = false ∧
    (∀ (o : Op) (s : RabbitState), s.colorRevealed = true →
       (step cfg o s).colorRevealed = true) ∧
    (∀ (o : Op) (s : RabbitState), (step cfg o s).colorRevealed = true →
       s.colorRevealed = true ∨
       ∃ W r, o = Op.jumpOp W r ∧ s.isFirstJump = true ∧ s.hasElement = true ∧
         s.isSpawning = false) ∧
    (∀ (W r : ℚ) (s s' : RabbitState) (dir : ℤ) (wf : Bool),
       jumpStart cfg W r s = JumpOutcome.animating s' dir wf →
       s'.colorRevealed = s.colorRevealed) := by
  refine ⟨rfl, ?_, ?_, ?_⟩
  · intro o s h
    cases o with
    | move mx my d =>
        rw [step]
        rcases hm : s.mouseHandler with _ | g
        · exact h
        · rw [(mouseMoveStep_fst_fields cfg cfg.mouseThreshold mx my d s).2.1]
          exact h
    | click d =>
        rw [step]
        rcases hc : s.clickHandler with _ | g
        · exact h
        · rw [(clickStep_fields cfg d s).1]
          exact h
    | jumpOp W r =>
        rw [step, jumpComplete_colorRevealed, h]
        simp
    | spawnOp =>
        rw [step, (spawn_fields s).2.1]
        exact h
    | spawnAndDropOp x y =>
        rw [step, (spawnAndDrop_fields x y s).2.1]
        exact h
    | spawnEndOp H =>
        rw [step, (spawnEnd_fields cfg H s).2.1]
        exact h
    | enableMouse =>
        rw [step, (enableMouseReaction_fields s).2.1]
        exact h
    | disableMouse =>
        rw [step, (disableMouseReaction_fields s).2.1]
        exact h
    | destroyOp =>
        rw [step]
        unfold destroy
        rw [(spriteDestroy_fields (disableMouseReaction s)).2.1,
          (disableMouseReaction_fields s).2.1]
        exact h
  · intro o s h
    cases o with
    | move mx my d =>
        left
        rw [step] at h
        rcases hm : s.mouseHandler with _ | g
        · rw [hm] at h
          exact h
        · rw [hm] at h
          rw [(mouseMoveStep_fst_fields cfg cfg.mouseThreshold mx my d s).2.1] at h
          exact h
    | click d =>
        left
        rw [step] at h
        rcases hc : s.clickHandler with _ | g
        · rw [hc] at h
          exact h
        · rw [hc] at h
          rw [(clickStep_fields cfg d s).1] at h
          exact h
    | jumpOp W r =>
        rw [step, jumpComplete_colorRevealed] at h
        simp only [Bool.or_eq_true, Bool.and_eq_true, Bool.not_eq_true'] at h
        rcases h with h | ⟨⟨hel, hsp⟩, hfj⟩
        · exact Or.inl h
        · exact Or.inr ⟨W, r, rfl, hfj, hel, hsp⟩
    | spawnOp =>
        left
        rw [step, (spawn_fields s).2.1] at h
        exact h
    | spawnAndDropOp x y =>
        left
        rw [step, (spawnAndDrop_fields x y s).2.1] at h
        exact h
    | spawnEndOp H =>
        left
        rw [step, (spawnEnd_fields cfg H s).2.1] at h
        exact h
    | enableMouse =>
        left
        rw [step, (enableMouseReaction_fields s).2.1] at h
        exact h
    | disableMouse =>
        left
        rw [step, (disableMouseReaction_fields s).2.1] at h
        exact h
    | destroyOp =>
        left
        rw [step] at h
        unfold destroy at h
        rw [(spriteDestroy_fields (disableMouseReaction s)).2.1,
          (disableMouseReaction_fields s).2.1] at h
        exact h
  · intro W r s s' dir wf h
    unfold jumpStart at h
    by_cases hg : (!s.hasElement ∨ s.isSpawning : Prop)
    · rw [if_pos hg] at h
      exact absurd h (by simp)
    · rw [if_neg hg] at h
      by_cases hfj : s.isFirstJump
      · rw [if_pos hfj] at h
        simp only [JumpOutcome.animating.injEq] at h
        rw [← h.1]
        rfl
      · rw [if_neg hfj] at h
        by_cases htr : (!canGoLeft cfg s ∧ !canGoRight cfg W s : Prop)
        · rw [if_pos htr] at h
          exact absurd h (by simp)
        · rw [if_neg htr] at h
          simp only [JumpOutcome.animating.injEq] at h
          rw [← h.1]
          rfl

theorem color_reveal_latch_witness :
    (step RABBIT_CONFIG (Op.jumpOp 1000 0)
      { sIdle100 with colorRevealed := true }).colorRevealed = true :=
  (color_reveal_latch RABBIT_CONFIG).2.1 (Op.jumpOp 1000 0)
    { sIdle100 with colorRevealed := true } rfl

/-- Claim C6: while the jumping flag is set every pointer-move event is rejected without starting a jump; whenever the handler does start a jump the jumping flag is set synchronously in the handler itself; hence two pointer-move events processed back to back can never both trigger a jump - at most one jump future is in flight. -/
theorem jump_reentrancy_guard (cfg : RabbitConfig) (th mx my d mx' my' d' : ℚ)
    (s : RabbitState) :
    (s.isJumping = true → (mouseMoveStep cfg th mx my d s).2 = false ∧
       (mouseMoveStep cfg th mx my d s).1.isJumping = true) ∧
    ((mouseMoveStep cfg th mx my d s).2 = true →
       (mouseMoveStep cfg th mx my d s).1.isJumping = true) ∧
    ¬((mouseMoveStep cfg th mx my d s).2 = true ∧
      (mouseMoveStep cfg th mx' my' d' (mouseMoveStep cfg th mx my d s).1).2 = true) := by
  refine ⟨?_, ?_, ?_⟩
  · intro hj
    rw [mouseMoveStep_snd, mouseMoveStep_fst_isJumping, hj]
    simp
  · intro h2
    rw [mouseMoveStep_snd] at h2
    rw [mouseMoveStep_fst_isJumping, h2]
    simp
  · rintro ⟨h1, h2⟩
    rw [mouseMoveStep_snd] at h1
    have hj1 : (mouseMoveStep cfg th mx my d s).1.isJumping = true := by
      rw [mouseMoveStep_fst_isJumping, h1]
      simp
    rw [mouseMoveStep_snd, hj1] at h2
    simp at h2

theorem jump_reentrancy_guard_witness :
    (mouseMoveStep RABBIT_CONFIG 150 0 0 10 { sIdle100 with isJumping := true }).2 = false :=
  ((jump_reentrancy_guard RABBIT_CONFIG 150 0 0 10 0 0 10
    { sIdle100 with isJumping := true }).1 rfl).1

/-- Claim C7: destroy() is idempotent - calling it twice from any state produces exactly the state of calling it once (the model is a total function, so the second call also raises no exception), and after a first destroy of a live actor no tracked event subscription or pending timer remains and the element is detached and forgotten. -/
theorem destroy_idempotent :
    (∀ s : RabbitState, destroy (destroy s) = destroy s) ∧
    (∀ s : RabbitState, s.isDestroyed = false →
       (destroy s).eventHandlers = [] ∧ (destroy s).timers = [] ∧
       (destroy s).hasElement = false ∧ (destroy s).isDestroyed = true) :=
  ⟨destroy_destroy, destroy_teardown⟩

theorem destroy_idempotent_witness :
    (destroy sClicks).eventHandlers = [] ∧ (destroy sClicks).timers = [] ∧
    (destroy sClicks).hasElement = false ∧ (destroy sClicks).isDestroyed = true :=
  destroy_idempotent.2 sClicks rfl

/-- Claim C8, counterexample: destroy() detaches the element and marks the actor destroyed, yet the operation sequence consisting of a single spawn re-attaches a visual handle, because Sprite.spawn only checks for an existing element and not the destroyed flag. This refutes the claim that no subsequent sequence of operations (including spawn) ever re-attaches a visual handle. -/
theorem destroy_resurrection_counterexample :
    (destroy (spawn (mkRabbit RABBIT_CONFIG))).hasElement = false ∧
    (destroy (spawn (mkRabbit RABBIT_CONFIG))).isDestroyed = true ∧
    (run RABBIT_CONFIG (destroy (spawn (mkRabbit RABBIT_CONFIG)))
      [Op.spawnOp]).hasElement = true :=
  ⟨rfl, rfl, rfl⟩

/-- Claim C8, amended: once destroy() has been called on a live actor, every subsequent sequence of operations that does not contain spawn or spawnAndDrop leaves the actor permanently torn down - no visual handle, destroyed flag still set - and enableMouseReaction remains a no-op; spawn and spawnAndDrop are excluded because Sprite.spawn guards only on an existing element, not on the destroyed flag, and so re-attaches a fresh handle. -/
theorem destroyed_stays_down (cfg : RabbitConfig) (s : RabbitState)
    (hs : s.isDestroyed = false) (ops : List Op)
    (hops : ∀ o ∈ ops, respawning o = false) :
    (run cfg (destroy s) ops).hasElement = false ∧
    (run cfg (destroy s) ops).isDestroyed = true ∧
    enableMouseReaction (run cfg (destroy s) ops) = run cfg (destroy s) ops := by
  obtain ⟨-, -, hel, hdes⟩ := destroy_teardown s hs
  have main : ∀ (l : List Op) (t : RabbitState), (∀ o ∈ l, respawning o = false) →
      t.hasElement = false → t.isDestroyed = true →
      (run cfg t l).hasElement = false ∧ (run cfg t l).isDestroyed = true := by
    intro l
    induction l with
    | nil => intro t _ k1 k2; exact ⟨k1, k2⟩
    | cons o tl ih =>
        intro t hl k1 k2
        obtain ⟨m1, m2⟩ := step_down cfg o t (hl o (by simp)) k1 k2
        exact ih (step cfg o t) (fun o' ho' => hl o' (by simp [ho'])) m1 m2
  obtain ⟨f1, f2⟩ := main ops (destroy s) hops hel hdes
  exact ⟨f1, f2, enableMouseReaction_noop _ f1⟩

theorem destroyed_stays_down_witness :
    (run RABBIT_CONFIG (destroy (spawn (mkRabbit RABBIT_CONFIG)))
      [Op.jumpOp 1000 0, Op.enableMouse, Op.click 0, Op.disableMouse]).hasElement = false ∧
    (run RABBIT_CONFIG (destroy (spawn (mkRabbit RABBIT_CONFIG)))
      [Op.jumpOp 1000 0, Op.enableMouse, Op.click 0, Op.disableMouse]).isDestroyed = true ∧
    enableMouseReaction (run RABBIT_CONFIG (destroy (spawn (mkRabbit RABBIT_CONFIG)))
        [Op.jumpOp 1000 0, Op.enableMouse, Op.click 0, Op.disableMouse]) =
      run RABBIT_CONFIG (destroy (spawn (mkRabbit RABBIT_CONFIG)))
        [Op.jumpOp 1000 0, Op.enableMouse, Op.click 0, Op.disableMouse] :=
  destroyed_stays_down RABBIT_CONFIG (spawn (mkRabbit RABBIT_CONFIG)) rfl
    [Op.jumpOp 1000 0, Op.enableMouse, Op.click 0, Op.disableMouse]
    (by decide)

/-- Claim C9: on a non-first jump with both directions feasible, the direction comes from the random draw r in [0,1): it flips to the opposite of lastDirection when r < 1/3 and keeps lastDirection otherwise, and the chosen direction is recorded as lastDirection for the next jump; with lastDirection = right (-1) the set of draws choosing left is exactly [0, 1/3), i.e. left has probability 1/3 and right 2/3 under the uniform draw. -/
theorem biased_direction_draw (cfg : RabbitConfig) (W r : ℚ) (s : RabbitState)
    (hel : s.hasElement = true) (hsp : s.isSpawning = false)
    (hfj : s.isFirstJump = false)
    (hl : canGoLeft cfg s = true) (hr : canGoRight cfg W s = true) :
    (∀ s' dir wf, jumpStart cfg W r s = JumpOutcome.animating s' dir wf →
        dir = drawDirection s.lastDirection r ∧ s'.lastDirection = dir) ∧
    (∃ s', jumpStart cfg W r s =
        JumpOutcome.animating s' (drawDirection s.lastDirection r) false) ∧
    (r < 1/3 → drawDirection s.lastDirection r = -s.lastDirection) ∧
    (1/3 ≤ r → drawDirection s.lastDirection r = s.lastDirection) ∧
    {q : ℚ | q ∈ Set.Ico (0:ℚ) 1 ∧ drawDirection (-1) q = 1} = Set.Ico (0:ℚ) (1/3) := by
  have hiff : ∀ q : ℚ, drawDirection (-1) q = 1 ↔ q < 1/3 := by
    intro q
    unfold drawDirection
    split_ifs with h
    · exact ⟨fun _ => h, fun _ => by decide⟩
    · exact ⟨fun hh => absurd hh (by decide), fun hh => absurd hh h⟩
  refine ⟨?_, ?_, ?_, ?_, ?_⟩
  · intro s' dir wf h
    rw [jumpStart] at h
    simp [hel, hsp, hfj, hl, hr, startJumpAnim] at h
    refine ⟨h.2.1.symm, ?_⟩
    rw [← h.1]
    exact h.2.1
  · rw [jumpStart]
    simp [hel, hsp, hfj, hl, hr]
  · intro h
    unfold drawDirection
    rw [if_pos h]
  · intro h
    unfold drawDirection
    rw [if_neg (not_lt.mpr h)]
  · ext q
    simp only [Set.mem_setOf_eq, Set.mem_Ico, hiff]
    constructor
    · rintro ⟨⟨h0, _⟩, h2⟩
      exact ⟨h0, h2⟩
    · rintro ⟨h0, h1⟩
      exact ⟨⟨h0, by linarith⟩, h1⟩

theorem biased_direction_draw_witness :
    drawDirection (sTrapped.lastDirection) (1/4) = -sTrapped.lastDirection :=
  (biased_direction_draw RABBIT_CONFIG 10000 (1/4)
    { sTrapped with x := 5000 } rfl rfl rfl
    (by norm_num [canGoLeft, sTrapped, mkRabbit, RABBIT_CONFIG])
    (by norm_num [canGoRight, sTrapped, mkRabbit, RABBIT_CONFIG])).2.2.1
    (by norm_num)

/-- Claim C10: the trapped-between-both-edges abort applies only to non-first jumps - on the first-ever jump with neither direction feasible, jump() does not abort: it selects the left direction (1), starts the animation, and on the completion signal still moves the stored position by the jump distance. -/
theorem first_jump_never_aborts (cfg : RabbitConfig) (W r : ℚ) (s : RabbitState)
    (hel : s.hasElement = true) (hsp : s.isSpawning = false)
    (hfj : s.isFirstJump = true)
    (_hnl : canGoLeft cfg s = false) (hnr : canGoRight cfg W s = false) :
    (∃ s', jumpStart cfg W r s = JumpOutcome.animating s' 1 true) ∧
    (jumpComplete cfg W r s).x = s.x - cfg.jumpDistance := by
  constructor
  · rw [jumpStart]
    simp [hel, hsp, hfj, hnr]
  · rw [jumpComplete, jumpStart]
    simp [hel, hsp, hfj, hnr, onJumpEnd, startJumpAnim]

theorem first_jump_never_aborts_witness :
    (jumpComplete RABBIT_CONFIG 500 0 sTrapFirst).x = -200 := by
  have h := (first_jump_never_aborts RABBIT_CONFIG 500 0 sTrapFirst rfl rfl rfl
    (by norm_num [canGoLeft, sTrapFirst, mkRabbit, RABBIT_CONFIG])
    (by norm_num [canGoRight, sTrapFirst, mkRabbit, RABBIT_CONFIG])).2
  rw [h]
  norm_num [sTrapFirst, mkRabbit, RABBIT_CONFIG]

end RabbitSpec
